import Mathlib

/-!
Shallow embedding of the worker control loop of `algobot/threads/botThread.py`
(class `BotThread`): the lower-interval trend-cross check, the periodic
statistics scheduler, lifecycle setup, the trading loop and the statistics
snapshot builder, together with theorems settling the specification claims.

Machine conventions: Python `datetime` timestamps are modelled as integer
seconds (`ℤ`); Python floats are modelled as rationals (`ℚ`); a Python value
that may be `None` is an `Option`; a Python function that may raise is given
an `Option String` error component carrying the exception message.
-/

namespace AlgoBot

/-- Caller constants `LIVE` and `SIMULATION` from `enums`. -/
inductive Caller
  | LIVE
  | SIMULATION
deriving DecidableEq, Repr

/-- Trend classification produced by `trader.get_trend`: `BEARISH`, `BULLISH`
or Python `None` (modelled as `NONE`). -/
inductive Trend
  | BEARISH
  | BULLISH
  | NONE
deriving DecidableEq, Repr

/-- The `trends` lookup dict in `handle_lower_interval_cross`:
`\x7bBEARISH: 'Bearish', BULLISH: 'Bullish', None: 'No'\x7d`. -/
def trendString : Trend → String
  | .BEARISH => "Bearish"
  | .BULLISH => "Bullish"
  | .NONE => "No"

/-- Observable outcome of one call of `handle_lower_interval_cross`:
the activity message emitted (if any), the telegram message sent (if any),
and the returned value, which the loop stores as the new previous trend. -/
structure CrossResult where
  activityMessage : Option String
  telegramMessage : Option String
  returned : Trend
deriving DecidableEq, Repr

/-- `BotThread.handle_lower_interval_cross`, lines 200-218.  Inputs: whether
`enableTelegramNotification` is checked, the previous lower trend, the lower
trend just computed from the lower-interval data, and the primary trend
`trader.trend`. -/
def handle_lower_interval_cross (telegramEnabled : Bool)
    (previousLowerTrend lowerTrend trend : Trend) : CrossResult :=
  if previousLowerTrend = lowerTrend ∨ lowerTrend = trend then
    ⟨none, none, lowerTrend⟩
  else
    let message := trendString lowerTrend ++ " trend detected on lower interval data."
    ⟨some message, if telegramEnabled then some message else none, lowerTrend⟩

/-- Mutable `BotThread`/gui state relevant to the scheduler, the telegram
integration and the running flags: `self.nextScheduledEvent`,
`self.scheduleSeconds`, whether `gui.telegramBot` has been created and
started, `gui.runningLive` and `gui.simulationRunningLive`. -/
structure BotState where
  nextScheduledEvent : Option ℤ
  scheduleSeconds : Option ℤ
  telegramBotStarted : Bool
  runningLive : Bool
  simulationRunningLive : Bool
deriving DecidableEq, Repr

/-- `BotThread.handle_scheduler`, lines 117-120, at current time `now`.
Returns the new state, the number of `send_statistics_telegram` calls made
(0 or 1), and the error message if the call raises (`timedelta(seconds=None)`
when `scheduleSeconds` was never set but `nextScheduledEvent` was). -/
def handle_scheduler (now : ℤ) (st : BotState) : BotState × ℕ × Option String :=
  match st.nextScheduledEvent with
  | none => (st, 0, none)
  | some deadline =>
    if deadline ≤ now then
      match st.scheduleSeconds with
      | some secs => ({st with nextScheduledEvent := some (now + secs)}, 1, none)
      | none => (st, 1, some "unsupported type for timedelta seconds component")
    else (st, 0, none)

/-- C1: the lower-interval cross check emits an activity message iff the
current lower trend differs from both the previous lower trend and the
primary trend; it sends a telegram message iff additionally the telegram
notification toggle is enabled; and it always returns the current lower
trend as the new previous trend. -/
theorem lower_interval_cross_notifies_iff (tg : Bool) (prev cur primary : Trend) :
    ((handle_lower_interval_cross tg prev cur primary).activityMessage.isSome ↔
      (cur ≠ prev ∧ cur ≠ primary))
  ∧ ((handle_lower_interval_cross tg prev cur primary).telegramMessage.isSome ↔
      ((cur ≠ prev ∧ cur ≠ primary) ∧ tg = true))
  ∧ (handle_lower_interval_cross tg prev cur primary).returned = cur := by
  cases tg <;> cases prev <;> cases cur <;> cases primary <;>
    simp [handle_lower_interval_cross]

/-- C2, counterexample: arm the scheduler with deadline 300 and interval 300
seconds, then run the check at time 301.  The claim says the new deadline is
the old deadline plus the interval, 600; the code computes 301 + 300 = 601. -/
theorem scheduler_old_deadline_counterexample :
    (handle_scheduler 301 ⟨some 300, some 300, false, false, false⟩).1.nextScheduledEvent
        = some 601
  ∧ (handle_scheduler 301 ⟨some 300, some 300, false, false, false⟩).1.nextScheduledEvent
        ≠ some (300 + 300) := by
  constructor <;> simp [handle_scheduler]

/-- C2, amended: for every armed scheduler state and every time at or past
the deadline, the check fires exactly once and the new deadline equals the
CURRENT time plus the configured interval in seconds (so a late fire drifts
the schedule forward by the observed delay). -/
theorem scheduler_fire_reschedules_from_now
    (now deadline secs : ℤ) (st : BotState)
    (harm : st.nextScheduledEvent = some deadline)
    (hsecs : st.scheduleSeconds = some secs)
    (hdue : deadline ≤ now) :
    handle_scheduler now st = ({st with nextScheduledEvent := some (now + secs)}, 1, none) := by
  simp [handle_scheduler, harm, hsecs, hdue]

/-- C2 witness: at 301 seconds with deadline 300 and interval 300, the
scheduler fires once and reschedules to 301 + 300 = 601. -/
theorem scheduler_fire_reschedules_from_now_witness :
    handle_scheduler 301 ⟨some 300, some 300, false, false, false⟩
      = (⟨some 601, some 300, false, false, false⟩, 1, none) := by
  have h := scheduler_fire_reschedules_from_now 301 300 300
    ⟨some 300, some 300, false, false, false⟩ rfl rfl (by norm_num)
  simpa using h

/-- C6: the scheduler check is a no-op while unarmed, a no-op at every time
strictly before the armed deadline (and leaves the state unchanged, so
repeated early checks are no-ops every time), and makes at most one
`send_statistics_telegram` call per check. -/
theorem scheduler_no_early_or_duplicate_fire (now : ℤ) (st : BotState) :
    (st.nextScheduledEvent = none → handle_scheduler now st = (st, 0, none))
  ∧ (∀ d, st.nextScheduledEvent = some d → now < d →
      handle_scheduler now st = (st, 0, none))
  ∧ (handle_scheduler now st).2.1 ≤ 1 := by
  refine ⟨fun h => by simp [handle_scheduler, h], fun d h hlt => ?_, ?_⟩
  · simp [handle_scheduler, h, not_le.mpr hlt]
  · unfold handle_scheduler
    rcases st.nextScheduledEvent with _ | d
    · simp
    · rcases st.scheduleSeconds with _ | s <;> dsimp <;> split <;> simp

/-- C6 witness: a concrete unarmed check at time 5 is a no-op, a concrete
armed check at time 5 with deadline 300 is a no-op, and both fire counts
are at most one. -/
theorem scheduler_no_early_or_duplicate_fire_witness :
    handle_scheduler 5 ⟨none, none, false, false, false⟩
        = (⟨none, none, false, false, false⟩, 0, none)
  ∧ handle_scheduler 5 ⟨some 300, some 300, false, false, false⟩
        = (⟨some 300, some 300, false, false, false⟩, 0, none) :=
  ⟨(scheduler_no_early_or_duplicate_fire 5 ⟨none, none, false, false, false⟩).1 rfl,
   (scheduler_no_early_or_duplicate_fire 5 ⟨some 300, some 300, false, false, false⟩).2.1
      300 rfl (by norm_num)⟩

/-- The `sortedIntervals` tuple of `initialize_lower_interval_trading`,
line 39, in its literal source order — note `12h` sits between `2h` and
`4h`. -/
def sortedIntervals : List String :=
  ["1m", "3m", "5m", "15m", "30m", "1h", "2h", "12h", "4h", "6h", "8h", "1d", "3d"]

/-- The lower interval computed by `initialize_lower_interval_trading`:
for an interval other than `1m`, the element one position before it in
`sortedIntervals` (`sortedIntervals[sortedIntervals.index(interval) - 1]`);
`none` when the guard skips the lookup or the interval is absent (where the
Python `.index` call raises `ValueError`). -/
def lowerOf (interval : String) : Option String :=
  if interval = "1m" then none
  else
    match sortedIntervals.findIdx? (· = interval) with
    | some i => sortedIntervals.get? (i - 1)
    | none => none

/-- The interval ladder as the spec states it, ordered ascending by
duration. -/
def specSortedLadder : List String :=
  ["1m", "3m", "5m", "15m", "30m", "1h", "2h", "4h", "6h", "8h", "12h", "1d", "3d"]

/-- One step down on the spec ladder, same lookup rule as `lowerOf`. -/
def specLowerOf (interval : String) : Option String :=
  if interval = "1m" then none
  else
    match specSortedLadder.findIdx? (· = interval) with
    | some i => specSortedLadder.get? (i - 1)
    | none => none

/-- C3: for primary interval `4h` the code picks lower interval `12h`
(the element literally before `4h` in the source tuple), while the
duration-sorted ladder of the spec gives `2h`; the two disagree. -/
theorem lower_interval_ladder_mismatch :
    lowerOf "4h" = some "12h"
  ∧ specLowerOf "4h" = some "2h"
  ∧ lowerOf "4h" ≠ specLowerOf "4h" := by
  refine ⟨rfl, rfl, ?_⟩
  decide

/-- Trader state read and written by `handle_trailing_prices`:
`trader.longTrailingPrice`, `trader.shortTrailingPrice` (both possibly
`None`) and `trader.currentPrice`. -/
structure TrailTrader where
  longTrailingPrice : Option ℚ
  shortTrailingPrice : Option ℚ
  currentPrice : ℚ
deriving DecidableEq, Repr

/-- `BotThread.handle_trailing_prices`, lines 161-171, with `price` the
value returned by `trader.dataView.get_current_price()`. -/
def handle_trailing_prices (price : ℚ) (t : TrailTrader) : TrailTrader :=
  let t1 : TrailTrader := {t with currentPrice := price}
  let t2 : TrailTrader :=
    match t1.longTrailingPrice with
    | some p => if price > p then {t1 with longTrailingPrice := some price} else t1
    | none => t1
  match t2.shortTrailingPrice with
  | some q => if price < q then {t2 with shortTrailingPrice := some price} else t2
  | none => t2

/-- Closed form of `handle_trailing_prices`: both trailing prices are
updated pointwise under `Option.map` and the current price is stored. -/
lemma handle_trailing_prices_eq (price : ℚ) (long short : Option ℚ) (cur : ℚ) :
    handle_trailing_prices price ⟨long, short, cur⟩ =
      ⟨long.map (fun p => if price > p then price else p),
       short.map (fun q => if price < q then price else q),
       price⟩ := by
  unfold handle_trailing_prices
  rcases long with _ | p
  · rcases short with _ | q
    · rfl
    · by_cases h2 : price < q <;> simp [h2]
  · rcases short with _ | q
    · by_cases h1 : price > p <;> simp [h1]
    · by_cases h1 : price > p <;> by_cases h2 : price < q <;> simp [h1, h2]

/-- C9: the trailing-price update is a one-directional ratchet.  A set long
trailing price becomes the current price exactly when the current price
exceeds it and otherwise keeps its value, so it never decreases; a set
short trailing price becomes the current price exactly when the current
price is below it and otherwise keeps its value, so it never increases;
unset trailing prices stay unset. -/
theorem trailing_prices_ratchet (price : ℚ) (t : TrailTrader) :
    (handle_trailing_prices price t).currentPrice = price
  ∧ (∀ p, t.longTrailingPrice = some p →
      (handle_trailing_prices price t).longTrailingPrice
          = some (if price > p then price else p)
      ∧ p ≤ (if price > p then price else p))
  ∧ (∀ q, t.shortTrailingPrice = some q →
      (handle_trailing_prices price t).shortTrailingPrice
          = some (if price < q then price else q)
      ∧ (if price < q then price else q) ≤ q)
  ∧ (t.longTrailingPrice = none → (handle_trailing_prices price t).longTrailingPrice = none)
  ∧ (t.shortTrailingPrice = none → (handle_trailing_prices price t).shortTrailingPrice = none) := by
  rcases t with ⟨long, short, cur⟩
  rw [handle_trailing_prices_eq]
  refine ⟨rfl, ?_, ?_, ?_, ?_⟩
  · intro p hp
    simp only at hp
    subst hp
    refine ⟨rfl, ?_⟩
    split_ifs with h
    · exact le_of_lt h
    · exact le_rfl
  · intro q hq
    simp only at hq
    subst hq
    refine ⟨rfl, ?_⟩
    split_ifs with h
    · exact le_of_lt h
    · exact le_rfl
  · intro h
    simp only at h
    subst h
    rfl
  · intro h
    simp only at h
    subst h
    rfl

/-- C9 witness: with current price 15, a long trailing price 10 ratchets up
to 15 and a short trailing price 20 ratchets down to 15. -/
theorem trailing_prices_ratchet_witness :
    (handle_trailing_prices 15 ⟨some 10, some 20, 0⟩).longTrailingPrice = some 15
  ∧ (handle_trailing_prices 15 ⟨some 10, some 20, 0⟩).shortTrailingPrice = some 15 := by
  have h := trailing_prices_ratchet 15 ⟨some 10, some 20, 0⟩
  have h1 := h.2.1 10 rfl
  have h2 := h.2.2.1 20 rfl
  constructor
  · rw [h1.1]
    norm_num
  · rw [h2.1]
    norm_num

/-- Python built-in `round` to the nearest integer, half to even, modelled
on exact rationals. -/
def roundHalfEven (x : ℚ) : ℤ :=
  let f := ⌊x⌋
  let r := x - f
  if r < 1/2 then f
  else if 1/2 < r then f + 1
  else if f % 2 = 0 then f else f + 1

/-- Python `round(x, n)` for positive `n`, modelled on exact rationals. -/
def pyRound (x : ℚ) (n : ℕ) : ℚ :=
  (roundHalfEven (x * 10 ^ n) : ℚ) / 10 ^ n

/-- A formatted field of the statistics dict built by `get_statistics`:
`dollar q` is the f-string rendering of `q` behind a dollar sign, `percent q`
the rendering of `q` before a percent sign, `plain q` a bare numeric
rendering. -/
inductive FmtVal
  | dollar (q : ℚ)
  | percent (q : ℚ)
  | plain (q : ℚ)
deriving DecidableEq, Repr

/-- The trader state read by `get_statistics`: numeric accessors as exact
rationals, string-producing accessors as opaque strings. -/
structure TraderView where
  startingBalance : ℚ
  balance : ℚ
  net : ℚ
  profit : ℚ
  percentage : ℚ
  currentPrice : ℚ
  coin : ℚ
  coinOwed : ℚ
  coinName : String
  profitLabel : String
deriving DecidableEq, Repr

/-- The numeric and label fields of the `updateDict` built by
`BotThread.get_statistics`, lines 246-286. -/
structure UpdateDict where
  net : ℚ
  startingBalanceValue : FmtVal
  currentBalanceValue : FmtVal
  netValue : FmtVal
  profitLossLabel : String
  profitLossValue : FmtVal
  percentageValue : FmtVal
  coinOwnedLabel : String
  coinOwnedValue : FmtVal
  coinOwedLabel : String
  coinOwedValue : FmtVal
  tickerValue : FmtVal
deriving DecidableEq, Repr

/-- `BotThread.get_statistics`, lines 246-286, restricted to the numeric and
label fields.  `tickerValue` comes from
`currentPriceString = f-string dollar get_current_price()` with no rounding;
all other numeric fields go through `round(_, 2)` or `round(_, 6)`. -/
def get_statistics (t : TraderView) : UpdateDict :=
  { net := t.net
    startingBalanceValue := .dollar (pyRound t.startingBalance 2)
    currentBalanceValue := .dollar (pyRound t.balance 2)
    netValue := .dollar (pyRound t.net 2)
    profitLossLabel := t.profitLabel
    profitLossValue := .dollar |pyRound t.profit 2|
    percentageValue := .percent (pyRound t.percentage 2)
    coinOwnedLabel := t.coinName ++ " Owned"
    coinOwnedValue := .plain (pyRound t.coin 6)
    coinOwedLabel := t.coinName ++ " Owed"
    coinOwedValue := .plain (pyRound t.coinOwed 6)
    tickerValue := .dollar t.currentPrice }

/-- Round-half-to-even lands within half a unit of its argument. -/
lemma roundHalfEven_close (y : ℚ) : |(roundHalfEven y : ℚ) - y| ≤ 1/2 := by
  unfold roundHalfEven
  have h0 : ((⌊y⌋ : ℚ)) ≤ y := Int.floor_le y
  have h1 : y < (⌊y⌋ : ℚ) + 1 := Int.lt_floor_add_one y
  dsimp only
  split_ifs with hr hr2 he <;>
    push_cast <;> rw [abs_le] <;> constructor <;> linarith

/-- `pyRound x n` is an integer multiple of `10 ^ (-n)` and lies within half
of that unit of `x`. -/
lemma pyRound_exact (x : ℚ) (n : ℕ) :
    ∃ z : ℤ, pyRound x n = (z : ℚ) / 10 ^ n
      ∧ |pyRound x n - x| ≤ 1 / (2 * 10 ^ n) := by
  refine ⟨roundHalfEven (x * 10 ^ n), rfl, ?_⟩
  unfold pyRound
  have hp : (0:ℚ) < 10 ^ n := by positivity
  have hrw : (roundHalfEven (x * 10 ^ n) : ℚ) / 10 ^ n - x
      = ((roundHalfEven (x * 10 ^ n) : ℚ) - x * 10 ^ n) / 10 ^ n := by
    field_simp
    ring
  rw [hrw, abs_div, abs_of_pos hp, div_le_iff₀ hp]
  have h := roundHalfEven_close (x * 10 ^ n)
  calc |(roundHalfEven (x * 10 ^ n) : ℚ) - x * 10 ^ n| ≤ 1/2 := h
    _ = 1 / (2 * 10 ^ n) * 10 ^ n := by field_simp

/-- C8, counterexample: with current price 1.2345 the ticker field of the
snapshot is the raw unrounded price behind the dollar sign, not the price
rounded to two decimal places (which would be 1.23), so the claim that every
currency field including the ticker price is rounded to two decimals is
false. -/
theorem statistics_ticker_unrounded_counterexample :
    (get_statistics ⟨0, 0, 0, 0, 0, 12345/10000, 0, 0, "BTC", "Profit"⟩).tickerValue
        = FmtVal.dollar (12345/10000)
  ∧ pyRound (12345/10000) 2 = 123/100
  ∧ FmtVal.dollar ((12345:ℚ)/10000) ≠ FmtVal.dollar (pyRound (12345/10000) 2) := by
  have hround : pyRound (12345/10000) 2 = 123/100 := by
    unfold pyRound roundHalfEven
    norm_num
  refine ⟨rfl, hround, ?_⟩
  rw [hround]
  simp only [ne_eq, FmtVal.dollar.injEq]
  norm_num

/-- C8, amended: in the statistics snapshot the starting balance, current
balance, net and profit/loss values carry a dollar prefix and are rounded to
exactly 2 decimal places; the profit/loss magnitude is the absolute value of
the rounded profit, its sign conveyed only by the separate label; the coin
owned/owed quantities are rounded to exactly 6 decimal places; the
percentage is rounded to exactly 2 decimal places with a trailing percent
marker; but the current ticker price is rendered with the dollar prefix
UNROUNDED.  Rounding to n decimals means: the value is an integer multiple
of 10^(-n) within half of that unit of the raw value. -/
theorem statistics_formatting (t : TraderView) :
    (get_statistics t).startingBalanceValue = FmtVal.dollar (pyRound t.startingBalance 2)
  ∧ (get_statistics t).currentBalanceValue = FmtVal.dollar (pyRound t.balance 2)
  ∧ (get_statistics t).netValue = FmtVal.dollar (pyRound t.net 2)
  ∧ (get_statistics t).profitLossValue = FmtVal.dollar |pyRound t.profit 2|
  ∧ (get_statistics t).profitLossLabel = t.profitLabel
  ∧ (get_statistics t).percentageValue = FmtVal.percent (pyRound t.percentage 2)
  ∧ (get_statistics t).coinOwnedValue = FmtVal.plain (pyRound t.coin 6)
  ∧ (get_statistics t).coinOwedValue = FmtVal.plain (pyRound t.coinOwed 6)
  ∧ (get_statistics t).tickerValue = FmtVal.dollar t.currentPrice
  ∧ (∀ x : ℚ, ∃ z : ℤ, pyRound x 2 = (z : ℚ) / 100 ∧ |pyRound x 2 - x| ≤ 1 / 200)
  ∧ (∀ x : ℚ, ∃ z : ℤ, pyRound x 6 = (z : ℚ) / 1000000
        ∧ |pyRound x 6 - x| ≤ 1 / 2000000) := by
  refine ⟨rfl, rfl, rfl, rfl, rfl, rfl, rfl, rfl, rfl, ?_, ?_⟩
  · intro x
    obtain ⟨z, hz, hb⟩ := pyRound_exact x 2
    refine ⟨z, ?_, ?_⟩
    · rw [hz]
      norm_num
    · calc |pyRound x 2 - x| ≤ 1 / (2 * 10 ^ 2) := hb
        _ = 1 / 200 := by norm_num
  · intro x
    obtain ⟨z, hz, hb⟩ := pyRound_exact x 6
    refine ⟨z, ?_, ?_⟩
    · rw [hz]
      norm_num
    · calc |pyRound x 6 - x| ≤ 1 / (2 * 10 ^ 6) := hb
        _ = 1 / 2000000 := by norm_num

/-- Externally observable effects of `BotThread` setup and run: signal
emissions and constructions of external collaborators. -/
inductive Effect
  | activity (caller : Caller) (msg : String)
  | constructTrader (caller : Caller)
  | constructLowerData (caller : Caller) (interval : String)
  | started (caller : Caller)
  | errorEvent (caller : Caller) (msg : String)
deriving DecidableEq, Repr

/-- The configuration values read during setup. -/
structure Config where
  binanceApiKey : String
  binanceApiSecret : String
  interval : String
  lowerIntervalCheck : Bool
  enableTelegramTrading : Bool
  schedulingStatisticsCheckBox : Bool
  schedulingTimeUnit : ℤ
  schedulingIntervalUnit : String
deriving DecidableEq, Repr

/-- `BotThread.check_api_credentials`, lines 86-96: the error message raised,
or `none` when both credentials are non-empty. -/
def check_api_credentials (apiKey apiSecret : String) : Option String :=
  if apiSecret.length = 0 then
    some "Please specify an API secret key. No API secret key found."
  else if apiKey.length = 0 then
    some "Please specify an API key. No API key found."
  else none

/-- `BotThread.initialize_lower_interval_trading` (spelled with z in the
source), lines 33-50: the effects emitted and the error, if any, raised by
the `sortedIntervals.index` lookup. -/
def initialise_lower_interval_trading (caller : Caller) (interval : String) :
    List Effect × Option String :=
  if interval ≠ "1m" then
    match lowerOf interval with
    | some low =>
        ([Effect.activity caller ("Retrieving data for lower interval " ++ low ++ "..."),
          Effect.constructLowerData caller low,
          Effect.activity caller "Retrieved lower interval data successfully."], none)
    | none => ([], some "is not in tuple")
  else ([], none)

/-- Tail of `BotThread.create_trader`, lines 83-84: the optional lower
interval initialisation gated on the `lowerIntervalCheck` checkbox. -/
def create_trader_lower_part (caller : Caller) (cfg : Config) :
    List Effect × Option String :=
  if cfg.lowerIntervalCheck then initialise_lower_interval_trading caller cfg.interval
  else ([], none)

/-- `BotThread.create_trader`, lines 52-84.  For `LIVE` the credentials are
checked before the trader is constructed; on success both branches emit the
retrieval activity messages, construct the trader, and optionally
initialise lower-interval data. -/
def create_trader (caller : Caller) (cfg : Config) : List Effect × Option String :=
  match caller with
  | .SIMULATION =>
    let es := [Effect.activity caller ("Retrieving data for interval " ++ cfg.interval ++ "..."),
               Effect.constructTrader caller,
               Effect.activity caller "Retrieved data successfully."]
    let lp := create_trader_lower_part caller cfg
    (es ++ lp.1, lp.2)
  | .LIVE =>
    match check_api_credentials cfg.binanceApiKey cfg.binanceApiSecret with
    | some e => ([], some e)
    | none =>
      let es := [Effect.activity caller ("Retrieving data for interval " ++ cfg.interval ++ "..."),
                 Effect.constructTrader caller,
                 Effect.activity caller "Retrieved data successfully."]
      let lp := create_trader_lower_part caller cfg
      (es ++ lp.1, lp.2)

/-- Unit conversion of `BotThread.initialize_scheduler` (spelled with z in
the source), lines 98-115: `none` models the `ValueError` branch. -/
def scheduler_seconds (unit : String) (measurement : ℤ) : Option ℤ :=
  if unit = "Seconds" then some measurement
  else if unit = "Minutes" then some (measurement * 60)
  else if unit = "Hours" then some (measurement * 3600)
  else if unit = "Days" then some (measurement * 3600 * 24)
  else none

/-- `BotThread.initialize_scheduler` at time `now`: arms the scheduler with
`scheduleSeconds = seconds` and `nextScheduledEvent = now + seconds`, or
raises on an invalid unit. -/
def initialise_scheduler (cfg : Config) (now : ℤ) (st : BotState) :
    BotState × Option String :=
  match scheduler_seconds cfg.schedulingIntervalUnit cfg.schedulingTimeUnit with
  | none => (st, some "Invalid type of unit.")
  | some s =>
      ({st with scheduleSeconds := some s, nextScheduledEvent := some (now + s)}, none)

/-- `BotThread.handle_telegram_bot`, lines 181-189: creates the bot if
needed and starts it. -/
def handle_telegram_bot (st : BotState) : BotState :=
  {st with telegramBotStarted := true}

/-- The LIVE-only extras of `setup_bot`, lines 131-135: start the telegram
bot when the telegram-trading toggle is checked, then arm the scheduler
when the scheduling-statistics toggle is checked (which may raise on an
invalid unit). -/
def setup_live_extras (cfg : Config) (now : ℤ) (st : BotState) :
    BotState × Option String :=
  if cfg.schedulingStatisticsCheckBox then
    initialise_scheduler cfg now
      (if cfg.enableTelegramTrading then handle_telegram_bot st else st)
  else ((if cfg.enableTelegramTrading then handle_telegram_bot st else st), none)

/-- `BotThread.setup_bot`, lines 122-140: create the trader, then for `LIVE`
optionally start telegram and arm the scheduler and set `runningLive`; for
`SIMULATION` set `simulationRunningLive` only.  Returns the new state, the
effects emitted, and the error, if any, that escapes. -/
def setup_bot (caller : Caller) (cfg : Config) (now : ℤ) (st : BotState) :
    BotState × List Effect × Option String :=
  match create_trader caller cfg with
  | (es, some e) => (st, es, some e)
  | (es, none) =>
    match caller with
    | .LIVE =>
      match setup_live_extras cfg now st with
      | (st2, some e) => (st2, es, some e)
      | (st2, none) => ({st2 with runningLive := true}, es, none)
    | .SIMULATION => ({st with simulationRunningLive := true}, es, none)

/-- `BotThread.run`, lines 310-324: `try` setup, emit `started`, run the
loop; a single `except` converts the escaping exception into one `error`
signal.  `setupRes` and `loopRes` each carry the effects emitted before
returning or raising, and the escaping error, if any. -/
def run (caller : Caller) (setupRes loopRes : List Effect × Option String) :
    List Effect :=
  match setupRes with
  | (es, some e) => es ++ [Effect.errorEvent caller e]
  | (es, none) =>
    match loopRes with
    | (ls, some e) => es ++ [Effect.started caller] ++ ls ++ [Effect.errorEvent caller e]
    | (ls, none) => es ++ [Effect.started caller] ++ ls

/-- `run` with its setup phase instantiated by `setup_bot`. -/
def run_bot (caller : Caller) (cfg : Config) (now : ℤ) (st : BotState)
    (loopRes : List Effect × Option String) : List Effect :=
  run caller (setup_bot caller cfg now st).2 loopRes

/-- Whether an effect is an `error` signal emission. -/
def isErrorEvent : Effect → Bool
  | .errorEvent _ _ => true
  | _ => false

/-- C4: a LIVE run whose configured API secret is empty fails during setup
with the error message citing the missing secret; the whole run emits only
that one `error` signal, so no trading engine is ever constructed and no
`started` signal is ever emitted, whatever the loop would have done. -/
theorem live_setup_empty_secret_fails (cfg : Config) (now : ℤ) (st : BotState)
    (loopRes : List Effect × Option String)
    (hsecret : cfg.binanceApiSecret = "") :
    run_bot .LIVE cfg now st loopRes
        = [Effect.errorEvent .LIVE "Please specify an API secret key. No API secret key found."]
  ∧ (∀ c, Effect.started c ∉ run_bot .LIVE cfg now st loopRes)
  ∧ (∀ c, Effect.constructTrader c ∉ run_bot .LIVE cfg now st loopRes)
  ∧ (setup_bot .LIVE cfg now st).1 = st := by
  have hcred : check_api_credentials cfg.binanceApiKey cfg.binanceApiSecret
      = some "Please specify an API secret key. No API secret key found." := by
    unfold check_api_credentials
    rw [hsecret]
    rfl
  have hsetup : setup_bot .LIVE cfg now st
      = (st, [], some "Please specify an API secret key. No API secret key found.") := by
    unfold setup_bot create_trader
    rw [hcred]
  have hrun : run_bot .LIVE cfg now st loopRes
      = [Effect.errorEvent .LIVE "Please specify an API secret key. No API secret key found."] := by
    unfold run_bot
    rw [hsetup]
    rfl
  refine ⟨hrun, ?_, ?_, by rw [hsetup]⟩ <;> intro c <;> rw [hrun] <;> simp

/-- C4 witness: secret `""` and key `"abc"` in LIVE mode produce exactly the
one error signal citing the missing secret. -/
theorem live_setup_empty_secret_fails_witness :
    run_bot .LIVE ⟨"abc", "", "1h", false, false, false, 0, "Seconds"⟩ 0
        ⟨none, none, false, false, false⟩ ([], none)
      = [Effect.errorEvent .LIVE "Please specify an API secret key. No API secret key found."] :=
  (live_setup_empty_secret_fails ⟨"abc", "", "1h", false, false, false, 0, "Seconds"⟩ 0
      ⟨none, none, false, false, false⟩ ([], none) rfl).1

/-- C5: when setup raises, the run output is the setup effects followed by
exactly one `error` signal carrying the message, contains no `started`
signal, and is independent of the loop (the loop body never executes); when
setup succeeds and a loop step raises, the output is the successful prefix
followed by exactly one `error` signal at its end (the loop is abandoned, no
retry); when nothing raises there is no `error` signal at all. -/
theorem run_error_propagation (caller : Caller) (es ls : List Effect)
    (serr lerr : Option String)
    (hes : es.countP isErrorEvent = 0)
    (hstart : ∀ c, Effect.started c ∉ es)
    (hls : ls.countP isErrorEvent = 0) :
    (∀ e, serr = some e →
        run caller (es, serr) (ls, lerr) = es ++ [Effect.errorEvent caller e]
      ∧ (∀ c, Effect.started c ∉ run caller (es, serr) (ls, lerr))
      ∧ (run caller (es, serr) (ls, lerr)).countP isErrorEvent = 1
      ∧ (∀ ls' lerr', run caller (es, serr) (ls', lerr') = run caller (es, serr) (ls, lerr)))
  ∧ (serr = none → ∀ e, lerr = some e →
        run caller (es, serr) (ls, lerr)
          = es ++ [Effect.started caller] ++ ls ++ [Effect.errorEvent caller e]
      ∧ (run caller (es, serr) (ls, lerr)).countP isErrorEvent = 1)
  ∧ (serr = none → lerr = none →
        run caller (es, serr) (ls, lerr) = es ++ [Effect.started caller] ++ ls
      ∧ (run caller (es, serr) (ls, lerr)).countP isErrorEvent = 0) := by
  refine ⟨fun e he => ?_, fun hs e hl => ?_, fun hs hl => ?_⟩
  · subst he
    refine ⟨rfl, fun c => ?_, ?_, fun ls' lerr' => rfl⟩
    · simp only [run, List.mem_append, List.mem_singleton]
      rintro (h | h)
      · exact hstart c h
      · cases h
    · simp [run, List.countP_append, hes, isErrorEvent]
  · subst hs
    subst hl
    refine ⟨rfl, ?_⟩
    simp [run, List.countP_append, hes, hls, isErrorEvent]
  · subst hs
    subst hl
    refine ⟨rfl, ?_⟩
    simp [run, List.countP_append, hes, hls, isErrorEvent]

/-- C5 witness: a concrete failing setup yields exactly the single error
signal and no `started`; a concrete loop failure after a successful setup
appends exactly one error signal. -/
theorem run_error_propagation_witness :
    run Caller.LIVE ([], some "boom") ([], none)
        = [Effect.errorEvent Caller.LIVE "boom"]
  ∧ run Caller.LIVE ([], none) ([], some "late")
        = [Effect.started Caller.LIVE, Effect.errorEvent Caller.LIVE "late"] := by
  have h := run_error_propagation Caller.LIVE [] [] (some "boom") none rfl
    (fun c => List.not_mem_nil _) rfl
  have h2 := run_error_propagation Caller.LIVE [] [] none (some "late") rfl
    (fun c => List.not_mem_nil _) rfl
  exact ⟨(h.1 "boom" rfl).1, ((h2.2.1 rfl "late" rfl).1).trans rfl⟩

/-- Arming the scheduler never touches the telegram flag or running flags. -/
lemma initialise_scheduler_frame (cfg : Config) (now : ℤ) (st : BotState) :
    (initialise_scheduler cfg now st).1.telegramBotStarted = st.telegramBotStarted
  ∧ (initialise_scheduler cfg now st).1.runningLive = st.runningLive
  ∧ (initialise_scheduler cfg now st).1.simulationRunningLive = st.simulationRunningLive := by
  unfold initialise_scheduler
  cases scheduler_seconds cfg.schedulingIntervalUnit cfg.schedulingTimeUnit <;>
    exact ⟨rfl, rfl, rfl⟩

/-- The LIVE extras leave the running flags unchanged, leave the telegram
flag unchanged when the telegram toggle is off, and leave the scheduler
deadline unchanged when the scheduling toggle is off. -/
lemma setup_live_extras_frame (cfg : Config) (now : ℤ) (st : BotState) :
    (setup_live_extras cfg now st).1.runningLive = st.runningLive
  ∧ (setup_live_extras cfg now st).1.simulationRunningLive = st.simulationRunningLive
  ∧ (cfg.enableTelegramTrading = false →
      (setup_live_extras cfg now st).1.telegramBotStarted = st.telegramBotStarted)
  ∧ (cfg.schedulingStatisticsCheckBox = false →
      (setup_live_extras cfg now st).1.nextScheduledEvent = st.nextScheduledEvent) := by
  unfold setup_live_extras
  by_cases hs : cfg.schedulingStatisticsCheckBox = true <;>
    by_cases ht : cfg.enableTelegramTrading = true
  · rw [if_pos hs, if_pos ht]
    exact ⟨(initialise_scheduler_frame cfg now _).2.1,
      (initialise_scheduler_frame cfg now _).2.2,
      fun hoff => absurd ht (by simp [hoff]),
      fun hoff => absurd hs (by simp [hoff])⟩
  · rw [if_pos hs, if_neg ht]
    exact ⟨(initialise_scheduler_frame cfg now _).2.1,
      (initialise_scheduler_frame cfg now _).2.2,
      fun _ => (initialise_scheduler_frame cfg now _).1,
      fun hoff => absurd hs (by simp [hoff])⟩
  · rw [if_neg hs, if_pos ht]
    exact ⟨rfl, rfl, fun hoff => absurd ht (by simp [hoff]), fun _ => rfl⟩
  · rw [if_neg hs, if_neg ht]
    exact ⟨rfl, rfl, fun _ => rfl, fun _ => rfl⟩

/-- SIMULATED setup either fails leaving the state untouched, or succeeds
setting exactly the simulation running flag. -/
lemma setup_bot_sim_state (cfg : Config) (now : ℤ) (st : BotState) :
    ((setup_bot .SIMULATION cfg now st).1 = st
        ∧ (setup_bot .SIMULATION cfg now st).2.2 ≠ none)
  ∨ ((setup_bot .SIMULATION cfg now st).1 = {st with simulationRunningLive := true}
        ∧ (setup_bot .SIMULATION cfg now st).2.2 = none) := by
  unfold setup_bot
  rcases h : create_trader .SIMULATION cfg with ⟨es, _ | e⟩
  · right
    exact ⟨rfl, rfl⟩
  · left
    exact ⟨rfl, by simp⟩

/-- LIVE setup leaves the state untouched, or stops after the extras, or
finishes by switching on `runningLive` over the extras state. -/
lemma setup_bot_live_state (cfg : Config) (now : ℤ) (st : BotState) :
    (setup_bot .LIVE cfg now st).1 = st
  ∨ (setup_bot .LIVE cfg now st).1 = (setup_live_extras cfg now st).1
  ∨ (setup_bot .LIVE cfg now st).1
      = {(setup_live_extras cfg now st).1 with runningLive := true} := by
  unfold setup_bot
  rcases h : create_trader .LIVE cfg with ⟨es, _ | e⟩
  · rcases h2 : setup_live_extras cfg now st with ⟨st2, _ | e2⟩
    · right
      right
      rfl
    · right
      left
      rfl
  · left
    rfl

/-- C10: SIMULATED setup leaves `nextScheduledEvent`, `scheduleSeconds`, the
telegram integration and the live running flag untouched, and, when it
succeeds, sets only the simulation running flag; moreover, for any caller,
the telegram integration is started only by LIVE setup with the telegram
toggle enabled, and the scheduler is armed only by LIVE setup with the
scheduling toggle enabled. -/
theorem simulated_setup_frame (caller : Caller) (cfg : Config) (now : ℤ) (st : BotState) :
    ((setup_bot .SIMULATION cfg now st).1.nextScheduledEvent = st.nextScheduledEvent
  ∧ (setup_bot .SIMULATION cfg now st).1.scheduleSeconds = st.scheduleSeconds
  ∧ (setup_bot .SIMULATION cfg now st).1.telegramBotStarted = st.telegramBotStarted
  ∧ (setup_bot .SIMULATION cfg now st).1.runningLive = st.runningLive)
  ∧ ((setup_bot .SIMULATION cfg now st).2.2 = none →
      (setup_bot .SIMULATION cfg now st).1.simulationRunningLive = true)
  ∧ ((setup_bot caller cfg now st).1.telegramBotStarted ≠ st.telegramBotStarted →
      caller = .LIVE ∧ cfg.enableTelegramTrading = true)
  ∧ ((setup_bot caller cfg now st).1.nextScheduledEvent ≠ st.nextScheduledEvent →
      caller = .LIVE ∧ cfg.schedulingStatisticsCheckBox = true) := by
  have hsim :
      (setup_bot .SIMULATION cfg now st).1.nextScheduledEvent = st.nextScheduledEvent
    ∧ (setup_bot .SIMULATION cfg now st).1.scheduleSeconds = st.scheduleSeconds
    ∧ (setup_bot .SIMULATION cfg now st).1.telegramBotStarted = st.telegramBotStarted
    ∧ (setup_bot .SIMULATION cfg now st).1.runningLive = st.runningLive := by
    obtain ⟨h, _⟩ | ⟨h, _⟩ := setup_bot_sim_state cfg now st <;> rw [h] <;>
      exact ⟨rfl, rfl, rfl, rfl⟩
  refine ⟨hsim, ?_, ?_, ?_⟩
  · intro hok
    obtain ⟨_, hne⟩ | ⟨h, _⟩ := setup_bot_sim_state cfg now st
    · exact absurd hok hne
    · rw [h]
  · intro hch
    cases caller
    case SIMULATION => exact absurd hsim.2.2.1 hch
    case LIVE =>
      refine ⟨rfl, ?_⟩
      by_contra hoff
      have hoff2 : cfg.enableTelegramTrading = false := by
        cases hb : cfg.enableTelegramTrading
        · rfl
        · exact absurd hb hoff
      apply hch
      obtain h | h | h := setup_bot_live_state cfg now st <;> rw [h]
      · exact (setup_live_extras_frame cfg now st).2.2.1 hoff2
      · exact (setup_live_extras_frame cfg now st).2.2.1 hoff2
  · intro hch
    cases caller
    case SIMULATION => exact absurd hsim.1 hch
    case LIVE =>
      refine ⟨rfl, ?_⟩
      by_contra hoff
      have hoff2 : cfg.schedulingStatisticsCheckBox = false := by
        cases hb : cfg.schedulingStatisticsCheckBox
        · rfl
        · exact absurd hb hoff
      apply hch
      obtain h | h | h := setup_bot_live_state cfg now st <;> rw [h]
      · exact (setup_live_extras_frame cfg now st).2.2.2 hoff2
      · exact (setup_live_extras_frame cfg now st).2.2.2 hoff2

/-- C10 witness: a concrete successful SIMULATED setup leaves the scheduler
unarmed and the telegram flag off while setting the simulation running
flag. -/
theorem simulated_setup_frame_witness :
    (setup_bot .SIMULATION ⟨"k", "s", "1h", false, false, false, 0, "Seconds"⟩ 0
        ⟨none, none, false, false, false⟩).1.nextScheduledEvent = none
  ∧ (setup_bot .SIMULATION ⟨"k", "s", "1h", false, false, false, 0, "Seconds"⟩ 0
        ⟨none, none, false, false, false⟩).1.simulationRunningLive = true := by
  have h := simulated_setup_frame .SIMULATION
    ⟨"k", "s", "1h", false, false, false, 0, "Seconds"⟩ 0
    ⟨none, none, false, false, false⟩
  exact ⟨h.1.1, h.2.1 rfl⟩

/-- The seven ordered steps of one iteration of the `while` loop of
`BotThread.trading_loop`, lines 298-308, tagged with the iteration index:
data update, logging, trailing prices, trading, scheduler check,
lower-interval cross check, statistics snapshot emission. -/
inductive StepEv
  | updateData (i : ℕ)
  | handleLogging (i : ℕ)
  | handleTrailingPrices (i : ℕ)
  | handleTrading (i : ℕ)
  | handleSchedulerStep (i : ℕ)
  | lowerIntervalCrossStep (i : ℕ)
  | snapshotEmitted (i : ℕ)
deriving DecidableEq, Repr

/-- The full step list of iteration `i`, in source order; the last element
is the `signals.updated.emit` snapshot emission. -/
def iterEvents (i : ℕ) : List StepEv :=
  [.updateData i, .handleLogging i, .handleTrailingPrices i, .handleTrading i,
   .handleSchedulerStep i, .lowerIntervalCrossStep i, .snapshotEmitted i]

/-- The `while` loop of `trading_loop` as a step trace.  `flagAt t` is the
value of the externally owned running flag at global sub-step `t`: the poll
that decides whether iteration `i` runs (the assignment to `runningLoop` at
line 294 for `i = 0` and at line 308 for later iterations) happens at
sub-step `8*i`, and the seven steps of iteration `i` occupy sub-steps
`8*i+1` to `8*i+7`.  The flag is read ONLY at the poll sub-steps.  `fuel`
bounds the number of polls so the recursion terminates. -/
def trading_loop_go (flagAt : ℕ → Bool) : ℕ → ℕ → List StepEv
  | _, 0 => []
  | i, fuel + 1 =>
    if flagAt (8 * i) then iterEvents i ++ trading_loop_go flagAt (i + 1) fuel
    else []

/-- The trace of the whole `while` loop, starting at iteration 0. -/
def trading_loop_trace (flagAt : ℕ → Bool) (fuel : ℕ) : List StepEv :=
  trading_loop_go flagAt 0 fuel

/-- Unrolling of `trading_loop_go`: with `m` consecutive true polls from
iteration `s` on and a false poll right after, the trace is exactly the
complete iterations `s` to `s+m-1`. -/
lemma trading_loop_go_spec (flagAt : ℕ → Bool) :
    ∀ (m s fuel : ℕ), (∀ j, s ≤ j → j < s + m → flagAt (8 * j) = true) →
      flagAt (8 * (s + m)) = false → m + 1 ≤ fuel →
      trading_loop_go flagAt s fuel = (List.range' s m).flatMap iterEvents := by
  intro m
  induction m with
  | zero =>
    intro s fuel htrue hfalse hfuel
    obtain ⟨f, rfl⟩ : ∃ f, fuel = f + 1 := ⟨fuel - 1, by omega⟩
    unfold trading_loop_go
    rw [show 8 * (s + 0) = 8 * s by ring] at hfalse
    simp [hfalse]
  | succ m ih =>
    intro s fuel htrue hfalse hfuel
    obtain ⟨f, rfl⟩ : ∃ f, fuel = f + 1 := ⟨fuel - 1, by omega⟩
    unfold trading_loop_go
    rw [htrue s le_rfl (by omega)]
    rw [if_pos rfl]
    rw [ih (s + 1) f (fun j h1 h2 => htrue j (by omega) (by omega))
      (by rw [show 8 * (s + 1 + m) = 8 * (s + (m + 1)) by ring]; exact hfalse)
      (by omega)]
    rw [List.range'_succ]
    simp

/-- C7: if the running flag reads true at every poll up to and including the
poll that enters iteration `i`, and flips to false at a sub-step `t`
strictly inside iteration `i` (after its poll, at or before its last step),
then the trace is exactly the complete iterations `0` to `i`: the in-flight
iteration finishes all seven of its steps including the final snapshot
emission, because the flag is re-read only at the loop-continuation polls,
and no step of any later iteration ever runs. -/
theorem loop_completes_inflight_iteration (flagAt : ℕ → Bool) (fuel i t : ℕ)
    (hlow : 8 * i < t) (hhigh : t ≤ 8 * i + 7)
    (hbefore : ∀ j, j < t → flagAt j = true)
    (hafter : ∀ j, t ≤ j → flagAt j = false)
    (hfuel : i + 2 ≤ fuel) :
    trading_loop_trace flagAt fuel = (List.range (i + 1)).flatMap iterEvents
  ∧ StepEv.snapshotEmitted i ∈ trading_loop_trace flagAt fuel
  ∧ (∀ j, i < j → StepEv.snapshotEmitted j ∉ trading_loop_trace flagAt fuel) := by
  have htr : trading_loop_trace flagAt fuel = (List.range' 0 (i + 1)).flatMap iterEvents := by
    apply trading_loop_go_spec flagAt (i + 1) 0 fuel
    · intro j _ hj
      exact hbefore (8 * j) (by omega)
    · exact hafter (8 * (0 + (i + 1))) (by omega)
    · omega
  have hrange : List.range (i + 1) = List.range' 0 (i + 1) := List.range_eq_range' (i + 1)
  refine ⟨by rw [htr, hrange], ?_, ?_⟩
  · rw [htr]
    simp only [List.mem_flatMap]
    exact ⟨i, by simp [List.mem_range'_1], by simp [iterEvents]⟩
  · intro j hj
    rw [htr]
    simp only [List.mem_flatMap, not_exists, not_and]
    intro a ha
    have : a < i + 1 := by
      simpa [List.mem_range'_1] using ha
    simp [iterEvents]
    omega

/-- C7 witness: with the flag turning false at sub-step 12 — mid-iteration 1,
before its scheduler-check step — the trace is exactly iterations 0 and 1,
and iteration 1 still emits its snapshot. -/
theorem loop_completes_inflight_iteration_witness :
    trading_loop_trace (fun j => decide (j < 12)) 4 = (List.range 2).flatMap iterEvents
  ∧ StepEv.snapshotEmitted 1 ∈ trading_loop_trace (fun j => decide (j < 12)) 4 := by
  have h := loop_completes_inflight_iteration (fun j => decide (j < 12)) 4 1 12
    (by norm_num) (by norm_num)
    (fun j hj => by simpa using hj)
    (fun j hj => by simp; omega)
    (by norm_num)
  exact ⟨h.1, h.2.1⟩

end AlgoBot
